import Mathlib

/-!
Verification development for the multi-provider invocation scripts of this
repository.  The Python sources are shallowly embedded: each vendor SDK /
HTTP collaborator becomes a function field of an environment record, a
Python exception crossing a function boundary becomes the `Except.error`
branch of the return type, and the filesystem / console effects that the
claims mention are made explicit as state and event traces.
-/

namespace Spec2Proof

/-- Model of a Python exception value.  Each constructor carries the string
that Python would render for `str(e)` (the payload used by the
`f"Error: e"` formatting in the sources). -/
inductive PyExn where
  | importError (msg : String)
  | valueError (msg : String)
  | vendorError (msg : String)
  | indexError (msg : String)
  | fileExistsError (msg : String)
deriving DecidableEq

/-- The string Python interpolates for an exception `e` in an f-string. -/
def PyExn.message : PyExn → String
  | .importError m => m
  | .valueError m => m
  | .vendorError m => m
  | .indexError m => m
  | .fileExistsError m => m

/-- The entry the fan-out functions store for one provider: the provider
result on success, the string "Error: " followed by the exception text when
the provider raised (the `except Exception as e` arm of `query_all` in
src/claude/llm_query.py lines 79-92, identically in
src/claude/llm_query_v2.py and in the two `generate_all` functions). -/
def exceptEntry : Except PyExn String → String
  | .ok s => s
  | .error e => "Error: " ++ e.message

/-- One `try/except Exception` block of `query_all`: an adapter result that
raised is converted into the error-text entry; a successful result is kept.
The block itself never lets an exception continue upward, which is why the
result is always in the `.ok` branch. -/
def tryExceptEntry : Except PyExn String → Except PyExn String
  | .ok s => .ok s
  | .error e => .ok ("Error: " ++ e.message)

theorem tryExceptEntry_ok (x : Except PyExn String) :
    tryExceptEntry x = .ok (exceptEntry x) := by
  cases x <;> rfl

/-- Environment of src/claude/llm_query.py: the three API-key environment
variables and the three vendor collaborators.  `geminiGenerate` stands for
`genai.Client(api_key=...).models.generate_content`, `openaiComplete` for
`OpenAI(api_key=...).chat.completions.create` on the constructed message
list, `anthropicCreate` for `anthropic.Anthropic(api_key=...)
.messages.create`.  Each takes the (possibly absent) key exactly as the
source passes `os.environ.get(...)` straight to the client constructor, and
returns either the response text or the exception the SDK call raises. -/
structure LQEnv where
  geminiKey : Option String
  openaiKey : Option String
  anthropicKey : Option String
  geminiGenerate : Option String → String → String → Except PyExn String
  openaiComplete : Option String → String → Option String → String → Except PyExn String
  anthropicCreate : Option String → String → Option String → Nat → String → Except PyExn String

/-- Default model of `query_gemini` in src/claude/llm_query.py line 18. -/
def geminiDefaultModel : String := "gemini-2.0-flash"

/-- Default model of `query_openai` in src/claude/llm_query.py line 32. -/
def openaiDefaultModel : String := "gpt-4o"

/-- Default model of `query_anthropic` in src/claude/llm_query.py line 54. -/
def anthropicDefaultModel : String := "claude-sonnet-4-20250514"

/-- src/claude/llm_query.py lines 18-27, `query_gemini`: reads
GEMINI_API_KEY, builds the client and calls `generate_content`; any
exception of the call propagates to the caller (there is no handler in the
function body). -/
def query_gemini (env : LQEnv) (prompt : String) (model : String) :
    Except PyExn String :=
  env.geminiGenerate env.geminiKey model prompt

/-- src/claude/llm_query.py lines 30-49, `query_openai`: builds the message
list (system message only when a system prompt is given) and calls the chat
completion endpoint; exceptions propagate. -/
def query_openai (env : LQEnv) (prompt : String) (model : String)
    (system : Option String) : Except PyExn String :=
  env.openaiComplete env.openaiKey model system prompt

/-- src/claude/llm_query.py lines 52-72, `query_anthropic`: builds the
keyword arguments (max_tokens defaults to 1024) and calls
`client.messages.create`; exceptions propagate. -/
def query_anthropic (env : LQEnv) (prompt : String)
    (model : String) (system : Option String)
    (maxTokens : Nat) : Except PyExn String :=
  env.anthropicCreate env.anthropicKey model system maxTokens prompt

/-- src/claude/llm_query.py lines 75-94, `query_all`: the `results` dict is
built by three `try/except Exception` blocks, one per provider, in source
order gemini, openai, anthropic; the function returns the dict.  The
`Except` in the result type records whether an exception escapes the
function body: the only statements are the guarded assignments, so any
escape would have to come through `tryExceptEntry`. -/
def query_all (env : LQEnv) (prompt : String) :
    Except PyExn (List (String × String)) := do
  let g ← tryExceptEntry (query_gemini env prompt geminiDefaultModel)
  let o ← tryExceptEntry (query_openai env prompt openaiDefaultModel none)
  let a ← tryExceptEntry (query_anthropic env prompt anthropicDefaultModel none 1024)
  return [("gemini", g), ("openai", o), ("anthropic", a)]

theorem query_all_eq (env : LQEnv) (prompt : String) :
    query_all env prompt =
      .ok [("gemini", exceptEntry (query_gemini env prompt geminiDefaultModel)),
           ("openai", exceptEntry (query_openai env prompt openaiDefaultModel none)),
           ("anthropic", exceptEntry (query_anthropic env prompt anthropicDefaultModel none 1024))] := by
  unfold query_all
  rw [tryExceptEntry_ok, tryExceptEntry_ok, tryExceptEntry_ok]
  rfl

/-- The fan-out pattern of the sources, generalized to a registry of n
named adapters: every `query_all` / `generate_all` in the repository is the
unfolding of this map over its fixed three-adapter registry (each adapter
invoked on the shared prompt inside its own `try/except Exception`
block). -/
def invokeAll (registry : List (String × (String → Except PyExn String)))
    (prompt : String) : List (String × String) :=
  registry.map (fun p => (p.1, exceptEntry (p.2 prompt)))

/-- The three-adapter registry that src/claude/llm_query.py hardcodes in
`query_all`, in source order. -/
def claudeRegistry (env : LQEnv) : List (String × (String → Except PyExn String)) :=
  [("gemini", fun p => query_gemini env p geminiDefaultModel),
   ("openai", fun p => query_openai env p openaiDefaultModel none),
   ("anthropic", fun p => query_anthropic env p anthropicDefaultModel none 1024)]

theorem query_all_eq_invokeAll (env : LQEnv) (prompt : String) :
    query_all env prompt = .ok (invokeAll (claudeRegistry env) prompt) := by
  rw [query_all_eq]; rfl

/-- An observable external effect of the scripts: a console line, a network
call to the named provider endpoint, a `mkdir` call, or a file write. -/
inductive Event where
  | printLine (s : String)
  | netCall (provider : String)
  | mkdirCall (dir : String)
  | fileWrite (path : String)
deriving DecidableEq

/-- Filesystem state the image scripts touch: the set of existing
directories and the set of existing regular-file paths. -/
structure FS where
  dirs : List String
  files : List String
deriving DecidableEq

def FS.isFile (fs : FS) (p : String) : Bool := fs.files.contains p

def FS.hasDir (fs : FS) (p : String) : Bool := fs.dirs.contains p

/-- `Path(d).mkdir(exist_ok=True)` of src/claude/image_generation.py line
114: a no-op when the directory exists, an error (`FileExistsError`) when
the path names an existing non-directory, otherwise the directory is
created. -/
def mkdirExistOk (d : String) (fs : FS) : Except PyExn FS :=
  if fs.isFile d then .error (.fileExistsError d)
  else if fs.hasDir d then .ok fs
  else .ok ⟨d :: fs.dirs, fs.files⟩

/-- `Path(p).write_bytes(data)` as it affects the path set. -/
def writeFile (p : String) (fs : FS) : FS :=
  if fs.files.contains p then fs else ⟨fs.dirs, p :: fs.files⟩

/-- Environment of src/claude/image_generation.py: the three key
environment variables and the three vendor collaborators.
`dalleGenerate` stands for `client.images.generate` together with the
`response.data[0].b64_json` access and base64 decode (it yields the decoded
bytes or the exception any of those steps raises); `imagenGenerate` yields
the `response.generated_images` list as decoded byte strings;
`stabilityPost` stands for the `requests.post` call of `generate_stability`
line 84 and yields the status code, the response text and the decoded
`artifacts` list, or the exception `requests` raises. -/
structure IGEnv where
  openaiKey : Option String
  geminiKey : Option String
  stabilityKey : Option String
  dalleGenerate : Option String → String → Except PyExn String
  imagenGenerate : Option String → String → Except PyExn (List String)
  stabilityPost : Option String → String → Except PyExn (Nat × String × List String)

/-- The value `generate_dalle` computes before writing: the image bytes, or
the exception of the vendor call (src/claude/image_generation.py lines
21-44). -/
def dalleImage (env : IGEnv) (prompt : String) : Except PyExn String :=
  env.dalleGenerate env.openaiKey prompt

/-- The value `generate_imagen` computes before writing: the first
generated image, or `ValueError("No image generated")` raised on an empty
`generated_images` (src/claude/image_generation.py lines 47-71). -/
def imagenImage (env : IGEnv) (prompt : String) : Except PyExn String :=
  match env.imagenGenerate env.geminiKey prompt with
  | .error e => .error e
  | .ok [] => .error (.valueError "No image generated")
  | .ok (b :: _) => .ok b

/-- The value `generate_stability` computes before writing
(src/claude/image_generation.py lines 74-107): the posted request is sent
with whatever `os.environ.get("STABILITY_API_KEY")` returned — there is no
credential check — then a non-200 status raises
`ValueError("Stability API error: " + text)`, an empty artifact list makes
the `artifacts[0]` access raise `IndexError`, and otherwise the decoded
first artifact is the image. -/
def stabilityImage (env : IGEnv) (prompt : String) : Except PyExn String :=
  match env.stabilityPost env.stabilityKey prompt with
  | .error e => .error e
  | .ok (status, text, arts) =>
    if status ≠ 200 then .error (.valueError ("Stability API error: " ++ text))
    else
      match arts with
      | [] => .error (.indexError "list index out of range")
      | b :: _ => .ok b

/-- src/claude/image_generation.py lines 21-44, `generate_dalle`: on vendor
success the bytes are written to `output_path` and the path is returned; a
vendor exception leaves the filesystem untouched and crosses the function
boundary.  The network call happens in both cases. -/
def generate_dalle (env : IGEnv) (prompt path : String) (fs : FS) :
    Except PyExn String × FS × List Event :=
  match dalleImage env prompt with
  | .error e => (.error e, fs, [.netCall "dalle"])
  | .ok _ => (.ok path, writeFile path fs, [.netCall "dalle", .fileWrite path])

/-- src/claude/image_generation.py lines 47-71, `generate_imagen`: same
shape; the empty-response case raises before any write. -/
def generate_imagen (env : IGEnv) (prompt path : String) (fs : FS) :
    Except PyExn String × FS × List Event :=
  match imagenImage env prompt with
  | .error e => (.error e, fs, [.netCall "imagen"])
  | .ok _ => (.ok path, writeFile path fs, [.netCall "imagen", .fileWrite path])

/-- src/claude/image_generation.py lines 74-107, `generate_stability`: same
shape; the `requests.post` network call is made unconditionally, key
present or not, and every failure path raises before any write. -/
def generate_stability (env : IGEnv) (prompt path : String) (fs : FS) :
    Except PyExn String × FS × List Event :=
  match stabilityImage env prompt with
  | .error e => (.error e, fs, [.netCall "stability"])
  | .ok _ => (.ok path, writeFile path fs, [.netCall "stability", .fileWrite path])

/-- One `try/except Exception` block of `generate_all`: a raising provider
contributes the error-text entry and its effects so far; a successful one
contributes the returned path. -/
def guardEntry : Except PyExn String × FS × List Event → String × FS × List Event
  | (.ok s, fs, evs) => (s, fs, evs)
  | (.error e, fs, evs) => ("Error: " ++ e.message, fs, evs)

/-- src/claude/image_generation.py lines 110-137, `generate_all`: the
output directory is created first (`mkdir(exist_ok=True)`, outside any
handler, so its exception propagates), then the three providers run in
source order dalle, imagen, stability, each inside its own `try/except
Exception` block, threading the filesystem; the result is the entry dict,
the final filesystem and the ordered effect trace. -/
def generate_all (env : IGEnv) (prompt outDir : String) (fs : FS) :
    Except PyExn (List (String × String) × FS × List Event) := do
  let fs1 ← mkdirExistOk outDir fs
  let rd := guardEntry (generate_dalle env prompt (outDir ++ "/dalle_output.png") fs1)
  let ri := guardEntry (generate_imagen env prompt (outDir ++ "/imagen_output.png") rd.2.1)
  let rs := guardEntry (generate_stability env prompt (outDir ++ "/stability_output.png") ri.2.1)
  return ([("dalle", rd.1), ("imagen", ri.1), ("stability", rs.1)], rs.2.1,
    Event.mkdirCall outDir :: (rd.2.2 ++ ri.2.2 ++ rs.2.2))

/-- A provider invocation annotated with its latency: the time the network
call takes before returning or raising. -/
structure TimedAdapter where
  latency : Nat
  outcome : Except PyExn String

/-- One completed provider invocation in a run of the fan-out: its name,
the entry recorded in the results dict, and the start and finish instants
of the invocation. -/
structure TimedRun where
  name : String
  entry : String
  start : Nat
  finish : Nat
deriving DecidableEq

/-- The fan-out of `query_all` / `generate_all` with an explicit clock.
The Python body is a straight-line statement sequence: each `try` block
runs to completion before the next begins (there is no thread, task pool or
executor anywhere in the sources), so an invocation starting at instant `t`
occupies the interval up to `t + latency` and the next invocation starts
exactly there. -/
def timedFanOut : List (String × TimedAdapter) → Nat → List TimedRun × Nat
  | [], t => ([], t)
  | (n, a) :: rest, t =>
    let tail := timedFanOut rest (t + a.latency)
    (⟨n, exceptEntry a.outcome, t, t + a.latency⟩ :: tail.1, tail.2)

/-- Total latencies of a timed registry. -/
def sumLatency (reg : List (String × TimedAdapter)) : Nat :=
  (reg.map (fun p => p.2.latency)).sum

/-- Largest single latency of a timed registry. -/
def maxLatency (reg : List (String × TimedAdapter)) : Nat :=
  (reg.map (fun p => p.2.latency)).foldr max 0

/-- A results-dict entry whose string marks a caught failure: every failure
entry the sources produce has the "Error: " text in front. -/
def entryIsFailure (s : String) : Bool := "Error: ".isPrefixOf s

theorem timedFanOut_duration (reg : List (String × TimedAdapter)) (t0 : Nat) :
    (timedFanOut reg t0).2 = t0 + sumLatency reg := by
  induction reg generalizing t0 with
  | nil => simp [timedFanOut, sumLatency]
  | cons hd tl ih =>
    simp only [timedFanOut, ih (t0 + hd.2.latency), sumLatency, List.map_cons, List.sum_cons]
    omega

theorem timedFanOut_head_start (reg : List (String × TimedAdapter)) (t0 : Nat) :
    ∀ r ∈ (timedFanOut reg t0).1.head?, r.start = t0 := by
  cases reg with
  | nil => simp [timedFanOut]
  | cons hd tl => simp [timedFanOut]

/-- In every run of the fan-out each invocation starts exactly when the
previous one finishes: the invocations are strictly sequential. -/
theorem timedFanOut_sequential (reg : List (String × TimedAdapter)) (t0 : Nat) :
    List.Chain' (fun r₁ r₂ => r₂.start = r₁.finish) (timedFanOut reg t0).1 := by
  induction reg generalizing t0 with
  | nil => simp [timedFanOut]
  | cons hd tl ih =>
    simp only [timedFanOut]
    refine List.chain'_cons'.mpr ⟨?_, ih (t0 + hd.2.latency)⟩
    intro r hr
    exact timedFanOut_head_start tl (t0 + hd.2.latency) r hr

/-- The entries a timed run records are exactly the per-adapter outcomes,
independent of every latency and of the starting instant. -/
theorem timedFanOut_entries (reg : List (String × TimedAdapter)) (t0 : Nat) :
    ((timedFanOut reg t0).1).map (fun r => (r.name, r.entry)) =
      reg.map (fun p => (p.1, exceptEntry p.2.outcome)) := by
  induction reg generalizing t0 with
  | nil => rfl
  | cons hd tl ih => simp only [timedFanOut, List.map_cons, ih]

/-- The fan-out pattern with the sequential state threading the sources
use: the results dict is built block by block, each adapter receiving the
state the previous block left (in src/claude/image_generation.py the
threaded state is the filesystem; the `query_all` functions thread nothing
but fit the same shape with a trivial state). -/
def invokeAllSt {σ : Type} :
    List (String × (σ → Except PyExn String × σ)) → σ → List (String × String) × σ
  | [], s => ([], s)
  | (n, a) :: rest, s =>
    let r := a s
    let tail := invokeAllSt rest r.2
    ((n, exceptEntry r.1) :: tail.1, tail.2)

/-- src/claude/llm_query.py `query_all` as an instance of the stateful
fan-out over the trivial state. -/
def claudeStRegistry (env : LQEnv) (prompt : String) :
    List (String × (Unit → Except PyExn String × Unit)) :=
  [("gemini", fun s => (query_gemini env prompt geminiDefaultModel, s)),
   ("openai", fun s => (query_openai env prompt openaiDefaultModel none, s)),
   ("anthropic", fun s => (query_anthropic env prompt anthropicDefaultModel none 1024, s))]

theorem query_all_eq_invokeAllSt (env : LQEnv) (prompt : String) :
    query_all env prompt = .ok (invokeAllSt (claudeStRegistry env prompt) ()).1 := by
  rw [query_all_eq]; rfl

/-- Environment of src/query_llms.py (src/query_llms_v2.py has the same
structure, differing only in default model strings, which are parameters
here): whether each vendor package imports, the three key environment
variables, and the vendor collaborators.  `geminiGenerate` stands for
`genai.configure` + `GenerativeModel(model).generate_content(prompt)`,
`openaiComplete` and `anthropicCreate` for the respective client calls;
they take the key (a present string: the source only reaches the call after
its key check), the model and the prompt, and return the response text or
the exception the call raises. -/
structure QLEnv where
  genaiImportOk : Bool
  openaiImportOk : Bool
  anthropicImportOk : Bool
  googleApiKey : Option String
  openaiApiKey : Option String
  anthropicApiKey : Option String
  geminiGenerate : String → String → String → Except PyExn String
  openaiComplete : String → String → String → Except PyExn String
  anthropicCreate : String → String → String → Except PyExn String

/-- Body of the `try` block of `query_gemini` in src/query_llms.py lines
26-38: import (raising `ImportError` when the package is absent), key read
with early `return None` and a printed message when unset, then the vendor
call, whose exceptions leave the block.  The trace records the prints and
the vendor network call. -/
def ql_gemini_body (env : QLEnv) (prompt model : String) :
    Except PyExn (Option String) × List Event :=
  if env.genaiImportOk = false then (.error (.importError "google-generativeai"), [])
  else
    match env.googleApiKey with
    | none => (.ok none, [.printLine "Error: GOOGLE_API_KEY environment variable not set"])
    | some key =>
      match env.geminiGenerate key model prompt with
      | .ok text => (.ok (some text), [.netCall "gemini"])
      | .error e => (.error e, [.netCall "gemini"])

/-- src/query_llms.py lines 15-45, `query_gemini`: the body wrapped in the
two handlers, `except ImportError` printing the install hint and `except
Exception as e` printing the error, both returning `None`.  No exception of
the body survives the handlers. -/
def ql_query_gemini (env : QLEnv) (prompt : String)
    (model : String) : Option String × List Event :=
  match ql_gemini_body env prompt model with
  | (.ok r, evs) => (r, evs)
  | (.error (.importError _), evs) =>
    (none, evs ++ [.printLine "Error: google-generativeai package not installed. Install with: pip install google-generativeai"])
  | (.error e, evs) =>
    (none, evs ++ [.printLine ("Error querying Gemini: " ++ e.message)])

/-- Body of the `try` block of `query_openai` in src/query_llms.py lines
59-76, same shape as the gemini body. -/
def ql_openai_body (env : QLEnv) (prompt model : String) :
    Except PyExn (Option String) × List Event :=
  if env.openaiImportOk = false then (.error (.importError "openai"), [])
  else
    match env.openaiApiKey with
    | none => (.ok none, [.printLine "Error: OPENAI_API_KEY environment variable not set"])
    | some key =>
      match env.openaiComplete key model prompt with
      | .ok text => (.ok (some text), [.netCall "openai"])
      | .error e => (.error e, [.netCall "openai"])

/-- src/query_llms.py lines 48-83, `query_openai`, with its handlers. -/
def ql_query_openai (env : QLEnv) (prompt : String)
    (model : String) : Option String × List Event :=
  match ql_openai_body env prompt model with
  | (.ok r, evs) => (r, evs)
  | (.error (.importError _), evs) =>
    (none, evs ++ [.printLine "Error: openai package not installed. Install with: pip install openai"])
  | (.error e, evs) =>
    (none, evs ++ [.printLine ("Error querying OpenAI: " ++ e.message)])

/-- Body of the `try` block of `query_anthropic` in src/query_llms.py lines
98-116, same shape. -/
def ql_anthropic_body (env : QLEnv) (prompt model : String) :
    Except PyExn (Option String) × List Event :=
  if env.anthropicImportOk = false then (.error (.importError "anthropic"), [])
  else
    match env.anthropicApiKey with
    | none => (.ok none, [.printLine "Error: ANTHROPIC_API_KEY environment variable not set"])
    | some key =>
      match env.anthropicCreate key model prompt with
      | .ok text => (.ok (some text), [.netCall "anthropic"])
      | .error e => (.error e, [.netCall "anthropic"])

/-- src/query_llms.py lines 86-123, `query_anthropic`, with its
handlers. -/
def ql_query_anthropic (env : QLEnv) (prompt : String)
    (model : String) : Option String × List Event :=
  match ql_anthropic_body env prompt model with
  | (.ok r, evs) => (r, evs)
  | (.error (.importError _), evs) =>
    (none, evs ++ [.printLine "Error: anthropic package not installed. Install with: pip install anthropic"])
  | (.error e, evs) =>
    (none, evs ++ [.printLine ("Error querying Anthropic: " ++ e.message)])

/-- Python truthiness of the `if response:` tests in `main`: an absent
response and an empty string are both falsy. -/
def pyTruthy : Option String → Bool
  | none => false
  | some s => s ≠ ""

/-- The `model = model or default_models[...]` idiom of `main`: a missing
or empty model argument falls back to the default. -/
def modelOrDefault (arg : Option String) (dflt : String) : String :=
  match arg with
  | none => dflt
  | some s => if s = "" then dflt else s

/-- Exit code of `main` in src/query_llms.py lines 126-197 once a prompt is
given.  With a recognized provider argument the requested query runs and
the process exits 0 on a truthy response and 1 otherwise (`sys.exit(1)`);
an unrecognized provider exits 1.  With no provider argument the
query-all path runs all three providers at their defaults, prints whatever
succeeded, and falls off the end of `main`: exit 0 unconditionally. -/
def ql_mainExit (env : QLEnv) (prompt : String) (providerArg : Option String)
    (modelArg : Option String) : Nat :=
  match providerArg with
  | some "gemini" =>
    if pyTruthy (ql_query_gemini env prompt (modelOrDefault modelArg "gemini-1.5-pro")).1
    then 0 else 1
  | some "openai" =>
    if pyTruthy (ql_query_openai env prompt (modelOrDefault modelArg "gpt-4o")).1
    then 0 else 1
  | some "anthropic" =>
    if pyTruthy (ql_query_anthropic env prompt (modelOrDefault modelArg "claude-3-5-sonnet-20241022")).1
    then 0 else 1
  | some _ => 1
  | none => 0

/-- Number of providers whose response is truthy on the query-all path of
`main` (the path prints a response exactly when this predicate holds of
it). -/
def ql_allSuccessCount (env : QLEnv) (prompt : String) : Nat :=
  (if pyTruthy (ql_query_gemini env prompt "gemini-1.5-pro").1 then 1 else 0) +
  (if pyTruthy (ql_query_openai env prompt "gpt-4o").1 then 1 else 0) +
  (if pyTruthy (ql_query_anthropic env prompt "claude-3-5-sonnet-20241022").1 then 1 else 0)

/-- The `--provider` choices of src/claude/llm_query.py (argparse rejects
anything else before `main` logic runs). -/
inductive LQChoice where
  | gemini
  | openai
  | anthropic
  | allChoice
deriving DecidableEq

/-- Exit code of the `__main__` block of src/claude/llm_query.py lines
97-128.  With `--provider all` the results of `query_all` are printed and
the script falls off the end: exit 0 (and `query_all` cannot raise).  With
a single provider the bare `print(func(**kwargs))` call lets any exception
of the provider escape, and an uncaught exception terminates a Python
process with exit code 1. -/
def claude_mainExit (env : LQEnv) (prompt : String) (choice : LQChoice)
    (modelArg : Option String) : Nat :=
  match choice with
  | .allChoice => 0
  | .gemini =>
    match query_gemini env prompt (match modelArg with | some m => m | none => geminiDefaultModel) with
    | .ok _ => 0
    | .error _ => 1
  | .openai =>
    match query_openai env prompt (match modelArg with | some m => m | none => openaiDefaultModel) none with
    | .ok _ => 0
    | .error _ => 1
  | .anthropic =>
    match query_anthropic env prompt (match modelArg with | some m => m | none => anthropicDefaultModel) none 1024 with
    | .ok _ => 0
    | .error _ => 1

/-- The entry one image provider contributes to the `generate_all` dict:
the output path on success, the error text when the provider raised. -/
def providerEntry : Except PyExn String → String → String
  | .ok _, p => p
  | .error e, _ => "Error: " ++ e.message

/-- The entry list `generate_all` produces, as a function of the vendor
outcomes alone. -/
def igEntries (env : IGEnv) (prompt outDir : String) : List (String × String) :=
  [("dalle", providerEntry (dalleImage env prompt) (outDir ++ "/dalle_output.png")),
   ("imagen", providerEntry (imagenImage env prompt) (outDir ++ "/imagen_output.png")),
   ("stability", providerEntry (stabilityImage env prompt) (outDir ++ "/stability_output.png"))]

theorem writeFile_dirs (p : String) (fs : FS) : (writeFile p fs).dirs = fs.dirs := by
  unfold writeFile; split <;> rfl

theorem guard_dalle_parts (env : IGEnv) (prompt p : String) (fs : FS) :
    guardEntry (generate_dalle env prompt p fs) =
      (providerEntry (dalleImage env prompt) p,
       (generate_dalle env prompt p fs).2.1,
       (generate_dalle env prompt p fs).2.2) := by
  unfold generate_dalle guardEntry providerEntry
  cases dalleImage env prompt <;> rfl

theorem guard_imagen_parts (env : IGEnv) (prompt p : String) (fs : FS) :
    guardEntry (generate_imagen env prompt p fs) =
      (providerEntry (imagenImage env prompt) p,
       (generate_imagen env prompt p fs).2.1,
       (generate_imagen env prompt p fs).2.2) := by
  unfold generate_imagen guardEntry providerEntry
  cases imagenImage env prompt <;> rfl

theorem guard_stability_parts (env : IGEnv) (prompt p : String) (fs : FS) :
    guardEntry (generate_stability env prompt p fs) =
      (providerEntry (stabilityImage env prompt) p,
       (generate_stability env prompt p fs).2.1,
       (generate_stability env prompt p fs).2.2) := by
  unfold generate_stability guardEntry providerEntry
  cases stabilityImage env prompt <;> rfl

theorem dalle_dirs (env : IGEnv) (prompt p : String) (fs : FS) :
    ((generate_dalle env prompt p fs).2.1).dirs = fs.dirs := by
  unfold generate_dalle
  cases dalleImage env prompt <;> simp [writeFile_dirs]

theorem imagen_dirs (env : IGEnv) (prompt p : String) (fs : FS) :
    ((generate_imagen env prompt p fs).2.1).dirs = fs.dirs := by
  unfold generate_imagen
  cases imagenImage env prompt <;> simp [writeFile_dirs]

theorem stability_dirs (env : IGEnv) (prompt p : String) (fs : FS) :
    ((generate_stability env prompt p fs).2.1).dirs = fs.dirs := by
  unfold generate_stability
  cases stabilityImage env prompt <;> simp [writeFile_dirs]

theorem dalle_fs_of_error (env : IGEnv) (prompt p : String) (fs : FS) (e : PyExn)
    (h : dalleImage env prompt = .error e) :
    (generate_dalle env prompt p fs).2.1 = fs := by
  unfold generate_dalle; rw [h]

theorem imagen_fs_of_error (env : IGEnv) (prompt p : String) (fs : FS) (e : PyExn)
    (h : imagenImage env prompt = .error e) :
    (generate_imagen env prompt p fs).2.1 = fs := by
  unfold generate_imagen; rw [h]

theorem stability_fs_of_error (env : IGEnv) (prompt p : String) (fs : FS) (e : PyExn)
    (h : stabilityImage env prompt = .error e) :
    (generate_stability env prompt p fs).2.1 = fs := by
  unfold generate_stability; rw [h]

theorem mkdirExistOk_of_not_file (d : String) (fs : FS) (h : fs.isFile d = false) :
    ∃ fs1, mkdirExistOk d fs = .ok fs1 ∧ fs1.hasDir d = true ∧ fs1.files = fs.files ∧
      (fs1.dirs = fs.dirs ∨ fs1.dirs = d :: fs.dirs) := by
  unfold mkdirExistOk
  rw [h]
  by_cases hd : fs.hasDir d = true
  · exact ⟨fs, by simp [hd], hd, rfl, Or.inl rfl⟩
  · refine ⟨⟨d :: fs.dirs, fs.files⟩, by simp [hd], ?_, rfl, Or.inr rfl⟩
    simp [FS.hasDir, List.contains_cons]

/-- Normal form of a successful `generate_all` run: the mkdir result is
threaded through the three guarded provider blocks, and the entries are
determined by the vendor outcomes alone. -/
theorem generate_all_ok_form (env : IGEnv) (prompt d : String) (fs fs1 : FS)
    (hmk : mkdirExistOk d fs = .ok fs1) :
    generate_all env prompt d fs =
      .ok (igEntries env prompt d,
        (generate_stability env prompt (d ++ "/stability_output.png")
          ((generate_imagen env prompt (d ++ "/imagen_output.png")
            ((generate_dalle env prompt (d ++ "/dalle_output.png") fs1).2.1)).2.1)).2.1,
        Event.mkdirCall d ::
          ((generate_dalle env prompt (d ++ "/dalle_output.png") fs1).2.2 ++
           (generate_imagen env prompt (d ++ "/imagen_output.png")
             ((generate_dalle env prompt (d ++ "/dalle_output.png") fs1).2.1)).2.2 ++
           (generate_stability env prompt (d ++ "/stability_output.png")
             ((generate_imagen env prompt (d ++ "/imagen_output.png")
               ((generate_dalle env prompt (d ++ "/dalle_output.png") fs1).2.1)).2.1)).2.2)) := by
  unfold generate_all
  rw [hmk]
  simp only [Except.bind, guard_dalle_parts, guard_imagen_parts, guard_stability_parts]
  rfl

theorem generate_all_ok_entries (env : IGEnv) (prompt d : String) (fs : FS)
    (res : List (String × String)) (fs2 : FS) (evs : List Event)
    (h : generate_all env prompt d fs = .ok (res, fs2, evs)) :
    res = igEntries env prompt d := by
  rcases hmk : mkdirExistOk d fs with e | fs1
  · rw [generate_all, hmk] at h
    exact absurd h (by simp [Except.bind])
  · rw [generate_all_ok_form env prompt d fs fs1 hmk] at h
    have := congrArg (fun x => x.1) (Except.ok.inj h)
    exact this.symm

/-- Empty filesystem used for concrete runs. -/
def fsEmpty : FS := ⟨[], []⟩

/-- A claude-script environment whose gemini transport always raises while
the other two providers answer normally. -/
def lqEnvGeminiFails : LQEnv :=
  ⟨none, none, none,
   fun _ _ _ => .error (.vendorError "transport failure"),
   fun _ _ _ _ => .ok "openai text",
   fun _ _ _ _ _ => .ok "anthropic text"⟩

/-- Same environment except the gemini transport answers normally. -/
def lqEnvAllOk : LQEnv :=
  ⟨none, none, none,
   fun _ _ _ => .ok "gemini text",
   fun _ _ _ _ => .ok "openai text",
   fun _ _ _ _ _ => .ok "anthropic text"⟩

/-- A claude-script environment in which every provider transport
raises. -/
def lqEnvAllBroken : LQEnv :=
  ⟨none, none, none,
   fun _ _ _ => .error (.vendorError "transport failure"),
   fun _ _ _ _ => .error (.vendorError "transport failure"),
   fun _ _ _ _ _ => .error (.vendorError "transport failure")⟩

/-- An image-script environment whose stability endpoint answers with HTTP
status 500 while the other providers answer normally. -/
def igEnvHttp500 : IGEnv :=
  ⟨some "sk", some "sk", some "sk",
   fun _ _ => .ok "PNG",
   fun _ _ => .ok ["PNG"],
   fun _ _ => .ok (500, "boom", [])⟩

/-- An image-script environment with every API-key variable unset: the two
SDK-backed providers raise at their call and the stability endpoint answers
401 to the post that is still made with the absent key. -/
def igEnvNoKey : IGEnv :=
  ⟨none, none, none,
   fun _ _ => .error (.vendorError "401 unauthorized"),
   fun _ _ => .error (.vendorError "401 unauthorized"),
   fun _ _ => .ok (401, "unauthorized", [])⟩

/-- A query_llms.py environment with every package importable and every key
variable unset. -/
def qlEnvNoKeys : QLEnv :=
  ⟨true, true, true, none, none, none,
   fun _ _ _ => .ok "gemini text",
   fun _ _ _ => .ok "openai text",
   fun _ _ _ => .ok "anthropic text"⟩

/-- A query_llms.py environment whose gemini package is missing, openai key
is unset, and anthropic transport raises. -/
def qlEnvMixedFail : QLEnv :=
  ⟨false, true, true, some "gk", none, some "ak",
   fun _ _ _ => .ok "gemini text",
   fun _ _ _ => .ok "openai text",
   fun _ _ _ => .error (.vendorError "transport failure")⟩

/-- Claim C1: for every request and every registry of n >= 0 adapters the
fan-out returns one entry per registered adapter, keyed by every registered
provider name exactly once, and an adapter failure never removes an entry;
realized by `query_all` of src/claude/llm_query.py over its fixed
three-name registry and by `generate_all` of src/claude/image_generation.py
over its fixed three-name registry. -/
theorem invokeAll_complete :
    (∀ (reg : List (String × (String → Except PyExn String))) (prompt : String),
      (invokeAll reg prompt).map Prod.fst = reg.map Prod.fst) ∧
    (∀ (reg : List (String × (String → Except PyExn String))) (prompt : String),
      (reg.map Prod.fst).Nodup → ((invokeAll reg prompt).map Prod.fst).Nodup) ∧
    (∀ (env : LQEnv) (prompt : String), ∃ l, query_all env prompt = Except.ok l ∧
      l.map Prod.fst = ["gemini", "openai", "anthropic"]) ∧
    (∀ (env : IGEnv) (prompt d : String) (fs : FS), fs.isFile d = false →
      ∃ res fs2 evs, generate_all env prompt d fs = Except.ok (res, fs2, evs) ∧
        res.map Prod.fst = ["dalle", "imagen", "stability"]) := by
  have hkeys : ∀ (reg : List (String × (String → Except PyExn String))) (prompt : String),
      (invokeAll reg prompt).map Prod.fst = reg.map Prod.fst := by
    intro reg prompt
    induction reg with
    | nil => rfl
    | cons hd tl ih => simp only [invokeAll, List.map_cons] at ih ⊢; rw [ih]
  refine ⟨hkeys, ?_, ?_, ?_⟩
  · intro reg prompt h
    rw [hkeys]; exact h
  · intro env prompt
    exact ⟨_, query_all_eq env prompt, rfl⟩
  · intro env prompt d fs h
    obtain ⟨fs1, hmk, -, -, -⟩ := mkdirExistOk_of_not_file d fs h
    exact ⟨_, _, _, generate_all_ok_form env prompt d fs fs1 hmk, rfl⟩

/-- Single-adapter registry used to instantiate the uniqueness part of the
completeness theorem. -/
def regSingle : List (String × (String → Except PyExn String)) :=
  [("gemini", fun p => .ok p)]

theorem invokeAll_complete_witness :
    ((invokeAll regSingle "p").map Prod.fst).Nodup ∧
    (∃ res fs2 evs, generate_all igEnvNoKey "p" "out" fsEmpty = Except.ok (res, fs2, evs) ∧
      res.map Prod.fst = ["dalle", "imagen", "stability"]) :=
  ⟨invokeAll_complete.2.1 regSingle "p" (by simp [regSingle]),
   invokeAll_complete.2.2.2 igEnvNoKey "p" "out" fsEmpty rfl⟩

/-- Claim C2: failure isolation of the fan-out in src/claude/llm_query.py:
when the gemini adapter raises, its entry becomes the error text, the other
two adapters are still invoked and their entries coincide with the run in
which gemini succeeds, and no exception leaves `query_all`. -/
theorem query_all_failure_isolated (e1 e2 : LQEnv) (prompt s : String) (err : PyExn)
    (hg1 : query_gemini e1 prompt geminiDefaultModel = .error err)
    (hg2 : query_gemini e2 prompt geminiDefaultModel = .ok s)
    (ho : query_openai e1 prompt openaiDefaultModel none =
      query_openai e2 prompt openaiDefaultModel none)
    (ha : query_anthropic e1 prompt anthropicDefaultModel none 1024 =
      query_anthropic e2 prompt anthropicDefaultModel none 1024) :
    query_all e1 prompt =
      .ok [("gemini", "Error: " ++ err.message),
           ("openai", exceptEntry (query_openai e2 prompt openaiDefaultModel none)),
           ("anthropic", exceptEntry (query_anthropic e2 prompt anthropicDefaultModel none 1024))] ∧
    query_all e2 prompt =
      .ok [("gemini", s),
           ("openai", exceptEntry (query_openai e2 prompt openaiDefaultModel none)),
           ("anthropic", exceptEntry (query_anthropic e2 prompt anthropicDefaultModel none 1024))] := by
  constructor
  · rw [query_all_eq, hg1, ho, ha]; rfl
  · rw [query_all_eq, hg2]; rfl

theorem query_all_failure_isolated_witness :
    query_all lqEnvGeminiFails "p" =
      .ok [("gemini", "Error: " ++ "transport failure"),
           ("openai", "openai text"), ("anthropic", "anthropic text")] ∧
    query_all lqEnvAllOk "p" =
      .ok [("gemini", "gemini text"),
           ("openai", "openai text"), ("anthropic", "anthropic text")] :=
  query_all_failure_isolated lqEnvGeminiFails lqEnvAllOk "p" "gemini text"
    (.vendorError "transport failure") rfl rfl rfl rfl

/-- Claim C3, counterexample: not every adapter converts its failures at
its own boundary.  `generate_stability` of src/claude/image_generation.py
explicitly raises `ValueError` on a non-200 status (line 102), and
`query_gemini` of src/claude/llm_query.py propagates any vendor exception
(no handler in its body): both results cross the adapter boundary in the
error branch. -/
theorem adapter_raises_past_boundary :
    (generate_stability igEnvHttp500 "p" "out.png" fsEmpty).1 =
      .error (.valueError ("Stability API error: " ++ "boom")) ∧
    query_gemini lqEnvGeminiFails "p" geminiDefaultModel =
      .error (.vendorError "transport failure") :=
  ⟨rfl, rfl⟩

/-- Claim C3 as amended: the adapters of src/query_llms.py (and the
structurally identical src/query_llms_v2.py) are total at their own
boundary — every exception of the `try` body is converted by the handlers
into the `None` outcome — while the adapters of src/claude/* raise, and the
conversion to a failure entry happens one level up, at the `query_all` /
`generate_all` boundary, which never lets an adapter exception escape. -/
theorem adapter_boundary_discipline :
    (∀ (env : QLEnv) (prompt model : String) (e : PyExn),
      (ql_gemini_body env prompt model).1 = .error e →
        (ql_query_gemini env prompt model).1 = none) ∧
    (∀ (env : QLEnv) (prompt model : String) (e : PyExn),
      (ql_openai_body env prompt model).1 = .error e →
        (ql_query_openai env prompt model).1 = none) ∧
    (∀ (env : QLEnv) (prompt model : String) (e : PyExn),
      (ql_anthropic_body env prompt model).1 = .error e →
        (ql_query_anthropic env prompt model).1 = none) ∧
    (∀ (env : LQEnv) (prompt : String), ∃ l, query_all env prompt = Except.ok l) ∧
    (∀ (env : IGEnv) (prompt d : String) (fs fs1 : FS), mkdirExistOk d fs = .ok fs1 →
      ∃ r, generate_all env prompt d fs = Except.ok r) := by
  refine ⟨?_, ?_, ?_, ?_, ?_⟩
  · intro env prompt model e h
    rcases hb : ql_gemini_body env prompt model with ⟨r, evs⟩
    rw [hb] at h
    simp only at h
    subst h
    cases e <;> simp [ql_query_gemini, hb]
  · intro env prompt model e h
    rcases hb : ql_openai_body env prompt model with ⟨r, evs⟩
    rw [hb] at h
    simp only at h
    subst h
    cases e <;> simp [ql_query_openai, hb]
  · intro env prompt model e h
    rcases hb : ql_anthropic_body env prompt model with ⟨r, evs⟩
    rw [hb] at h
    simp only at h
    subst h
    cases e <;> simp [ql_query_anthropic, hb]
  · intro env prompt
    exact ⟨_, query_all_eq env prompt⟩
  · intro env prompt d fs fs1 hmk
    exact ⟨_, generate_all_ok_form env prompt d fs fs1 hmk⟩

theorem adapter_boundary_discipline_witness :
    (ql_query_gemini qlEnvMixedFail "p" "m").1 = none ∧
    (ql_query_anthropic qlEnvMixedFail "p" "m").1 = none ∧
    (∃ l, query_all lqEnvGeminiFails "p" = Except.ok l) :=
  ⟨adapter_boundary_discipline.1 qlEnvMixedFail "p" "m" (.importError "google-generativeai") rfl,
   adapter_boundary_discipline.2.2.1 qlEnvMixedFail "p" "m" (.vendorError "transport failure") rfl,
   adapter_boundary_discipline.2.2.2.1 lqEnvGeminiFails "p"⟩

/-- Claim C4, counterexample: the adapters of src/claude/* perform no
credential check at all.  With STABILITY_API_KEY unset,
`generate_stability` still performs the `requests.post` network call (its
effect trace is exactly the network attempt), so no configuration failure
is produced before a transport attempt. -/
theorem missing_key_network_attempt :
    igEnvNoKey.stabilityKey = none ∧
    (generate_stability igEnvNoKey "p" "out.png" fsEmpty).2.2 =
      [Event.netCall "stability"] :=
  ⟨rfl, rfl⟩

/-- Claim C4 as amended: only the adapters of src/query_llms.py (and the
structurally identical src/query_llms_v2.py) detect a missing key before
any network attempt — they print the configuration message and return
`None`, with no network event in the trace — while the adapters of
src/claude/* perform no credential check and pass the absent key into the
vendor call. -/
theorem missing_key_preflight :
    (∀ (env : QLEnv) (prompt model : String),
      env.genaiImportOk = true → env.googleApiKey = none →
        ql_query_gemini env prompt model =
          (none, [.printLine "Error: GOOGLE_API_KEY environment variable not set"])) ∧
    (∀ (env : QLEnv) (prompt model : String),
      env.openaiImportOk = true → env.openaiApiKey = none →
        ql_query_openai env prompt model =
          (none, [.printLine "Error: OPENAI_API_KEY environment variable not set"])) ∧
    (∀ (env : QLEnv) (prompt model : String),
      env.anthropicImportOk = true → env.anthropicApiKey = none →
        ql_query_anthropic env prompt model =
          (none, [.printLine "Error: ANTHROPIC_API_KEY environment variable not set"])) ∧
    (∀ (env : QLEnv) (prompt model p : String),
      env.genaiImportOk = true → env.googleApiKey = none →
        Event.netCall p ∉ (ql_query_gemini env prompt model).2) := by
  have hg : ∀ (env : QLEnv) (prompt model : String),
      env.genaiImportOk = true → env.googleApiKey = none →
        ql_query_gemini env prompt model =
          (none, [.printLine "Error: GOOGLE_API_KEY environment variable not set"]) := by
    intro env prompt model hi hk
    simp [ql_query_gemini, ql_gemini_body, hi, hk]
  refine ⟨hg, ?_, ?_, ?_⟩
  · intro env prompt model hi hk
    simp [ql_query_openai, ql_openai_body, hi, hk]
  · intro env prompt model hi hk
    simp [ql_query_anthropic, ql_anthropic_body, hi, hk]
  · intro env prompt model p hi hk
    rw [hg env prompt model hi hk]
    simp

theorem missing_key_preflight_witness :
    ql_query_gemini qlEnvNoKeys "p" "m" =
      (none, [.printLine "Error: GOOGLE_API_KEY environment variable not set"]) ∧
    Event.netCall "gemini" ∉ (ql_query_gemini qlEnvNoKeys "p" "m").2 :=
  ⟨missing_key_preflight.1 qlEnvNoKeys "p" "m" rfl rfl,
   missing_key_preflight.2.2.2 qlEnvNoKeys "p" "m" "gemini" rfl rfl⟩

/-- Three providers of one time unit each, in the fixed order of
`query_all`. -/
def latOneRegistry : List (String × TimedAdapter) :=
  [("gemini", ⟨1, .ok "a"⟩), ("openai", ⟨1, .ok "b"⟩), ("anthropic", ⟨1, .ok "c"⟩)]

/-- Claim C5, counterexample: the fan-out is not parallel.  With three
providers of latency 1 the run takes 3 time units, strictly more than the
slowest single provider, because each `try` block of `query_all` /
`generate_all` runs to completion before the next starts. -/
theorem parallel_latency_refuted :
    (timedFanOut latOneRegistry 0).2 = 3 ∧
    maxLatency latOneRegistry = 1 ∧
    ¬ (timedFanOut latOneRegistry 0).2 ≤ maxLatency latOneRegistry := by
  refine ⟨rfl, rfl, ?_⟩
  intro h
  rw [show (timedFanOut latOneRegistry 0).2 = 3 from rfl,
      show maxLatency latOneRegistry = 1 from rfl] at h
  omega

/-- Claim C5 as amended: the fan-out invokes the registered adapters
strictly sequentially — each invocation starts exactly when the previous
one finishes — so the latency of the whole call is the sum of the
providers' latencies, not the maximum. -/
theorem sequential_fanout_latency (reg : List (String × TimedAdapter)) (t0 : Nat) :
    (timedFanOut reg t0).2 = t0 + sumLatency reg ∧
    List.Chain' (fun r₁ r₂ => r₂.start = r₁.finish) (timedFanOut reg t0).1 :=
  ⟨timedFanOut_duration reg t0, timedFanOut_sequential reg t0⟩

/-- The scenario of the spec, section 8: a fast provider, a provider slower
than the prospective 1-unit deadline, and a provider that always raises at
the transport layer. -/
def mixedRegistry : List (String × TimedAdapter) :=
  [("fast", ⟨0, .ok "ok"⟩), ("slow", ⟨5, .ok "done"⟩),
   ("broken", ⟨0, .error (.vendorError "transport failure")⟩)]

/-- Claim C6, counterexample: there is no deadline mechanism.  The slow
provider finishes at instant 5, past the 1-unit deadline of the scenario,
yet its entry is its own success value, not a timeout failure entry. -/
theorem deadline_timeout_refuted :
    (timedFanOut mixedRegistry 0).1 =
      [⟨"fast", "ok", 0, 0⟩, ⟨"slow", "done", 0, 5⟩,
       ⟨"broken", "Error: " ++ "transport failure", 5, 5⟩] ∧
    (1 : Nat) < 5 ∧
    entryIsFailure "done" = false := by
  refine ⟨rfl, by omega, ?_⟩
  decide

/-- Claim C6 as amended: `query_all` / `generate_all` accept no deadline;
every registered adapter is awaited to completion, its entry is its own
outcome whatever its latency, and the one-entry-per-adapter invariant holds
unconditionally — so no entry is ever a timeout failure, however slow the
provider. -/
theorem fanout_ignores_deadline (reg : List (String × TimedAdapter)) (t0 : Nat) :
    ((timedFanOut reg t0).1).map (fun r => (r.name, r.entry)) =
      reg.map (fun p => (p.1, exceptEntry p.2.outcome)) ∧
    ((timedFanOut reg t0).1).length = reg.length := by
  refine ⟨timedFanOut_entries reg t0, ?_⟩
  have := congrArg List.length (timedFanOut_entries reg t0)
  simpa using this

theorem invokeAllSt_det {σ : Type}
    (reg : List (String × (σ → Except PyExn String × σ)))
    (h : ∀ p ∈ reg, ∀ s : σ, (p.2 s).2 = s ∧ ∀ s' : σ, (p.2 s).1 = (p.2 s').1) :
    ∀ s s' : σ, (invokeAllSt reg s).1 = (invokeAllSt reg s').1 := by
  induction reg with
  | nil => intro s s'; rfl
  | cons hd tl ih =>
    intro s s'
    have hhd := h hd (by simp)
    have htl : ∀ p ∈ tl, ∀ s : σ, (p.2 s).2 = s ∧ ∀ s' : σ, (p.2 s).1 = (p.2 s').1 :=
      fun p hp => h p (by simp [hp])
    simp only [invokeAllSt]
    rw [(hhd s).2 s', (hhd s).1, (hhd s').1, ih htl s s']

/-- Claim C7: determinism and idempotence of the fan-out.  Over adapters
that are deterministic stubs (their result does not depend on the threaded
state and they leave it unchanged) a second run of the stateful fan-out —
started from the state the first run left — produces the identical entry
list; `query_all` of src/claude/llm_query.py is an instance of the stateful
fan-out, and two successive `generate_all` runs of
src/claude/image_generation.py against the same environment yield identical
entry lists whatever the filesystem does in between. -/
theorem fanout_idempotent :
    (∀ (σ : Type) (reg : List (String × (σ → Except PyExn String × σ))),
      (∀ p ∈ reg, ∀ s : σ, (p.2 s).2 = s ∧ ∀ s' : σ, (p.2 s).1 = (p.2 s').1) →
      ∀ s : σ, (invokeAllSt reg (invokeAllSt reg s).2).1 = (invokeAllSt reg s).1) ∧
    (∀ (env : LQEnv) (prompt : String),
      query_all env prompt = .ok (invokeAllSt (claudeStRegistry env prompt) ()).1) ∧
    (∀ (env : IGEnv) (prompt d : String) (fs fsB fsC : FS)
      (res1 res2 : List (String × String)) (ev1 ev2 : List Event),
      generate_all env prompt d fs = .ok (res1, fsB, ev1) →
      generate_all env prompt d fsB = .ok (res2, fsC, ev2) →
      res1 = res2) := by
  refine ⟨?_, query_all_eq_invokeAllSt, ?_⟩
  · intro σ reg h s
    exact invokeAllSt_det reg h (invokeAllSt reg s).2 s
  · intro env prompt d fs fsB fsC res1 res2 ev1 ev2 h1 h2
    rw [generate_all_ok_entries env prompt d fs res1 fsB ev1 h1,
        generate_all_ok_entries env prompt d fsB res2 fsC ev2 h2]

/-- Deterministic single-stub registry over a counter state. -/
def regStub : List (String × (Nat → Except PyExn String × Nat)) :=
  [("gemini", fun s => (.ok "stub text", s))]

theorem fanout_idempotent_witness :
    (invokeAllSt regStub (invokeAllSt regStub 0).2).1 = (invokeAllSt regStub 0).1 ∧
    query_all lqEnvAllOk "p" = .ok (invokeAllSt (claudeStRegistry lqEnvAllOk "p") ()).1 := by
  constructor
  · exact fanout_idempotent.1 Nat regStub
      (by intro p hp s
          simp only [regStub, List.mem_singleton] at hp
          subst hp
          exact ⟨rfl, fun s' => rfl⟩) 0
  · exact fanout_idempotent.2.1 lqEnvAllOk "p"

/-- Claim C8, counterexample: on the query-all path of `main` in
src/query_llms.py the process always exits 0 — also in an environment where
every provider fails (here: every key variable unset), so "exit 0 exactly
when at least one provider succeeded" is false. -/
theorem allmode_exit_refuted :
    ql_mainExit qlEnvNoKeys "p" none none = 0 ∧
    ql_allSuccessCount qlEnvNoKeys "p" = 0 ∧
    ¬ (ql_mainExit qlEnvNoKeys "p" none none = 0 ↔
        0 < ql_allSuccessCount qlEnvNoKeys "p") := by
  refine ⟨rfl, rfl, ?_⟩
  intro h
  have hc := h.mp rfl
  rw [show ql_allSuccessCount qlEnvNoKeys "p" = 0 from rfl] at hc
  omega

/-- Claim C8 as amended: the query-all path of `main` in src/query_llms.py
exits 0 unconditionally, regardless of how many providers succeeded; a
single requested provider that fails exits 1, for every one of the three
providers of each CLI and every model argument (`sys.exit(1)` on a falsy
response in src/query_llms.py, the uncaught exception in
src/claude/llm_query.py). -/
theorem cli_exit_codes :
    (∀ (env : QLEnv) (prompt : String) (m : Option String),
      ql_mainExit env prompt none m = 0) ∧
    (∀ (env : QLEnv) (prompt : String) (m : Option String),
      pyTruthy (ql_query_gemini env prompt (modelOrDefault m "gemini-1.5-pro")).1 = false →
        ql_mainExit env prompt (some "gemini") m = 1) ∧
    (∀ (env : QLEnv) (prompt : String) (m : Option String),
      pyTruthy (ql_query_openai env prompt (modelOrDefault m "gpt-4o")).1 = false →
        ql_mainExit env prompt (some "openai") m = 1) ∧
    (∀ (env : QLEnv) (prompt : String) (m : Option String),
      pyTruthy (ql_query_anthropic env prompt (modelOrDefault m "claude-3-5-sonnet-20241022")).1 = false →
        ql_mainExit env prompt (some "anthropic") m = 1) ∧
    (∀ (env : LQEnv) (prompt : String) (m : Option String),
      claude_mainExit env prompt .allChoice m = 0) ∧
    (∀ (env : LQEnv) (prompt : String) (m : Option String) (e : PyExn),
      query_gemini env prompt (match m with | some mm => mm | none => geminiDefaultModel) = .error e →
        claude_mainExit env prompt .gemini m = 1) ∧
    (∀ (env : LQEnv) (prompt : String) (m : Option String) (e : PyExn),
      query_openai env prompt (match m with | some mm => mm | none => openaiDefaultModel) none = .error e →
        claude_mainExit env prompt .openai m = 1) ∧
    (∀ (env : LQEnv) (prompt : String) (m : Option String) (e : PyExn),
      query_anthropic env prompt (match m with | some mm => mm | none => anthropicDefaultModel) none 1024 = .error e →
        claude_mainExit env prompt .anthropic m = 1) := by
  refine ⟨fun _ _ _ => rfl, ?_, ?_, ?_, fun _ _ _ => rfl, ?_, ?_, ?_⟩
  · intro env prompt m h
    simp [ql_mainExit, h]
  · intro env prompt m h
    simp [ql_mainExit, h]
  · intro env prompt m h
    simp [ql_mainExit, h]
  · intro env prompt m e h
    unfold claude_mainExit
    rw [h]
  · intro env prompt m e h
    unfold claude_mainExit
    rw [h]
  · intro env prompt m e h
    unfold claude_mainExit
    rw [h]

theorem cli_exit_codes_witness :
    ql_mainExit qlEnvNoKeys "p" none none = 0 ∧
    ql_mainExit qlEnvNoKeys "p" (some "gemini") none = 1 ∧
    ql_mainExit qlEnvNoKeys "p" (some "openai") none = 1 ∧
    ql_mainExit qlEnvNoKeys "p" (some "anthropic") none = 1 ∧
    claude_mainExit lqEnvGeminiFails "p" .gemini none = 1 ∧
    claude_mainExit lqEnvAllBroken "p" .openai (some "gpt-4o") = 1 ∧
    claude_mainExit lqEnvAllBroken "p" .anthropic none = 1 :=
  ⟨cli_exit_codes.1 qlEnvNoKeys "p" none,
   cli_exit_codes.2.1 qlEnvNoKeys "p" none rfl,
   cli_exit_codes.2.2.1 qlEnvNoKeys "p" none rfl,
   cli_exit_codes.2.2.2.1 qlEnvNoKeys "p" none rfl,
   cli_exit_codes.2.2.2.2.2.1 lqEnvGeminiFails "p" none (.vendorError "transport failure") rfl,
   cli_exit_codes.2.2.2.2.2.2.1 lqEnvAllBroken "p" (some "gpt-4o") (.vendorError "transport failure") rfl,
   cli_exit_codes.2.2.2.2.2.2.2 lqEnvAllBroken "p" none (.vendorError "transport failure") rfl⟩

/-- Claim C9: in src/query_llms.py (and the structurally identical
src/query_llms_v2.py) every per-provider function returns `None` on every
error path — missing package, missing key, vendor exception — so all
distinct error kinds collapse to `None` at the interface and the caller
cannot distinguish them from the return value. -/
theorem ql_errors_collapse (env : QLEnv) (prompt model : String) :
    (env.genaiImportOk = false → (ql_query_gemini env prompt model).1 = none) ∧
    (env.googleApiKey = none → (ql_query_gemini env prompt model).1 = none) ∧
    (∀ k e, env.googleApiKey = some k → env.geminiGenerate k model prompt = .error e →
      (ql_query_gemini env prompt model).1 = none) ∧
    (env.openaiImportOk = false → (ql_query_openai env prompt model).1 = none) ∧
    (env.openaiApiKey = none → (ql_query_openai env prompt model).1 = none) ∧
    (∀ k e, env.openaiApiKey = some k → env.openaiComplete k model prompt = .error e →
      (ql_query_openai env prompt model).1 = none) ∧
    (env.anthropicImportOk = false → (ql_query_anthropic env prompt model).1 = none) ∧
    (env.anthropicApiKey = none → (ql_query_anthropic env prompt model).1 = none) ∧
    (∀ k e, env.anthropicApiKey = some k → env.anthropicCreate k model prompt = .error e →
      (ql_query_anthropic env prompt model).1 = none) := by
  refine ⟨?_, ?_, ?_, ?_, ?_, ?_, ?_, ?_, ?_⟩
  · intro h
    simp [ql_query_gemini, ql_gemini_body, h]
  · intro h
    cases himp : env.genaiImportOk with
    | false => simp [ql_query_gemini, ql_gemini_body, himp]
    | true => simp [ql_query_gemini, ql_gemini_body, himp, h]
  · intro k e hk he
    cases himp : env.genaiImportOk with
    | false => simp [ql_query_gemini, ql_gemini_body, himp]
    | true => cases e <;> simp [ql_query_gemini, ql_gemini_body, himp, hk, he]
  · intro h
    simp [ql_query_openai, ql_openai_body, h]
  · intro h
    cases himp : env.openaiImportOk with
    | false => simp [ql_query_openai, ql_openai_body, himp]
    | true => simp [ql_query_openai, ql_openai_body, himp, h]
  · intro k e hk he
    cases himp : env.openaiImportOk with
    | false => simp [ql_query_openai, ql_openai_body, himp]
    | true => cases e <;> simp [ql_query_openai, ql_openai_body, himp, hk, he]
  · intro h
    simp [ql_query_anthropic, ql_anthropic_body, h]
  · intro h
    cases himp : env.anthropicImportOk with
    | false => simp [ql_query_anthropic, ql_anthropic_body, himp]
    | true => simp [ql_query_anthropic, ql_anthropic_body, himp, h]
  · intro k e hk he
    cases himp : env.anthropicImportOk with
    | false => simp [ql_query_anthropic, ql_anthropic_body, himp]
    | true => cases e <;> simp [ql_query_anthropic, ql_anthropic_body, himp, hk, he]

theorem ql_errors_collapse_witness :
    (ql_query_gemini qlEnvMixedFail "p" "m").1 = none ∧
    (ql_query_openai qlEnvMixedFail "p" "m").1 = none ∧
    (ql_query_anthropic qlEnvMixedFail "p" "m").1 = none :=
  ⟨(ql_errors_collapse qlEnvMixedFail "p" "m").1 rfl,
   (ql_errors_collapse qlEnvMixedFail "p" "m").2.2.2.2.1 rfl,
   (ql_errors_collapse qlEnvMixedFail "p" "m").2.2.2.2.2.2.2.2 "ak"
     (.vendorError "transport failure") rfl rfl⟩

/-- Claim C10: `generate_all` of src/claude/image_generation.py (and the
structurally identical src/claude/image_generation_v2.py) creates the
output directory before invoking any provider; whenever the call returns
the directory exists, and on a run where every provider invocation fails
the filesystem change is the new directory alone — no file is written. -/
theorem generate_all_mkdir_first (env : IGEnv) (prompt d : String) (fs : FS)
    (h : fs.isFile d = false) :
    ∃ res fs2 evs, generate_all env prompt d fs = Except.ok (res, fs2, evs) ∧
      fs2.hasDir d = true ∧
      evs.head? = some (.mkdirCall d) ∧
      ((∃ e1, dalleImage env prompt = .error e1) →
       (∃ e2, imagenImage env prompt = .error e2) →
       (∃ e3, stabilityImage env prompt = .error e3) →
       fs2.files = fs.files ∧ (fs2.dirs = fs.dirs ∨ fs2.dirs = d :: fs.dirs)) := by
  obtain ⟨fs1, hmk, hdir, hfiles, hdirs⟩ := mkdirExistOk_of_not_file d fs h
  refine ⟨_, _, _, generate_all_ok_form env prompt d fs fs1 hmk, ?_, rfl, ?_⟩
  · show FS.hasDir _ d = true
    unfold FS.hasDir
    rw [stability_dirs, imagen_dirs, dalle_dirs]
    exact hdir
  · rintro ⟨e1, h1⟩ ⟨e2, h2⟩ ⟨e3, h3⟩
    rw [dalle_fs_of_error env prompt (d ++ "/dalle_output.png") fs1 e1 h1,
        imagen_fs_of_error env prompt (d ++ "/imagen_output.png") fs1 e2 h2,
        stability_fs_of_error env prompt (d ++ "/stability_output.png") fs1 e3 h3]
    exact ⟨hfiles, hdirs⟩

theorem generate_all_mkdir_first_witness :
    ∃ res fs2 evs, generate_all igEnvNoKey "p" "out" fsEmpty = Except.ok (res, fs2, evs) ∧
      fs2.hasDir "out" = true ∧
      evs.head? = some (.mkdirCall "out") ∧
      ((∃ e1, dalleImage igEnvNoKey "p" = .error e1) →
       (∃ e2, imagenImage igEnvNoKey "p" = .error e2) →
       (∃ e3, stabilityImage igEnvNoKey "p" = .error e3) →
       fs2.files = fsEmpty.files ∧
         (fs2.dirs = fsEmpty.dirs ∨ fs2.dirs = "out" :: fsEmpty.dirs)) :=
  generate_all_mkdir_first igEnvNoKey "p" "out" fsEmpty rfl

end Spec2Proof
